import Mathlib

/-!
Shallow embedding of the CubeMars AK80-64 motor control repository
(constants.py, motor.py, app.py) and verification of its specification.

Python floats are modelled as rationals (ℚ); Python `int(...)` conversion
(truncation toward zero) is modelled by `truncRat`.  Python functions that
mutate `motor_state` in place are modelled as functions returning the new
state; functions that send on the CAN bus return the message they build.
-/

namespace CubeMars

/-! ### constants.py -/

def P_MIN : ℚ := -12.5
def P_MAX : ℚ := 12.5
def V_MIN : ℚ := -8.0
def V_MAX : ℚ := 8.0
def KP_MIN : ℚ := 0.0
def KP_MAX : ℚ := 500.0
def KD_MIN : ℚ := 0.0
def KD_MAX : ℚ := 5.0
def T_MIN : ℚ := -144.0
def T_MAX : ℚ := 144.0

def CONTROLLER_ID : ℕ := 0x17

/-! ### motor.py : MotorState -/

/-- `MotorState.__init__` fields: five setpoint inputs and three measured
telemetry outputs, all Python floats. -/
structure MotorState where
  p_in : ℚ
  v_in : ℚ
  kp_in : ℚ
  kd_in : ℚ
  t_in : ℚ
  p_out : ℚ
  v_out : ℚ
  t_out : ℚ
  deriving DecidableEq, Repr

/-- Default-constructed `MotorState()`: all fields 0.0 except `kd_in = 0.50`. -/
def initMotorState : MotorState :=
  { p_in := 0, v_in := 0, kp_in := 0, kd_in := 0.50, t_in := 0,
    p_out := 0, v_out := 0, t_out := 0 }

/-- Python `int(q)` on a float/rational: truncation toward zero. -/
def truncRat (q : ℚ) : ℤ := q.num.tdiv q.den

/-- `float_to_uint(x, x_min, x_max, bits)` from motor.py: converts a float to
an unsigned integer for CAN transmission.  No clamping happens here; the
callers clamp first.  Returns 0 for unsupported bit widths. -/
def float_to_uint (x x_min x_max : ℚ) (bits : ℕ) : ℤ :=
  let span := x_max - x_min
  let offset := x_min
  if bits = 12 then truncRat ((x - offset) * 4095 / span)
  else if bits = 16 then truncRat ((x - offset) * 65535 / span)
  else 0

/-- `uint_to_float(x_int, x_min, x_max, bits)` from motor.py: converts a
received unsigned integer back to a float. -/
def uint_to_float (x_int : ℤ) (x_min x_max : ℚ) (bits : ℕ) : ℚ :=
  let span := x_max - x_min
  let offset := x_min
  if bits = 12 then (x_int * span / 4095) + offset
  else if bits = 16 then (x_int * span / 65535) + offset
  else 0

/-! ### motor.py : CAN messages and bus -/

/-- `can.Message`: only the fields this code sets are modelled. -/
structure CanMessage where
  arbitration_id : ℕ
  data : List ℕ
  is_extended_id : Bool
  deriving DecidableEq, Repr

/-- CAN bus handle.  `sendOk` records whether `bus.send` succeeds or raises
(the `try`/`except` branches of motor.py). -/
structure Bus where
  sendOk : Bool
  deriving DecidableEq, Repr

/-- `enter_mode(bus)`: returns the success flag and the message sent (if the
bus is present). -/
def enter_mode : Option Bus → Bool × Option CanMessage
  | none => (false, none)
  | some bus =>
      (bus.sendOk,
       some { arbitration_id := CONTROLLER_ID,
              data := [0xFF, 0xFF, 0xFF, 0xFF, 0xFF, 0xFF, 0xFF, 0xFC],
              is_extended_id := false })

/-- `exit_mode(bus)`. -/
def exit_mode : Option Bus → Bool × Option CanMessage
  | none => (false, none)
  | some bus =>
      (bus.sendOk,
       some { arbitration_id := CONTROLLER_ID,
              data := [0xFF, 0xFF, 0xFF, 0xFF, 0xFF, 0xFF, 0xFF, 0xFD],
              is_extended_id := false })

/-- `zero_position(bus)`. -/
def zero_position : Option Bus → Bool × Option CanMessage
  | none => (false, none)
  | some bus =>
      (bus.sendOk,
       some { arbitration_id := CONTROLLER_ID,
              data := [0xFF, 0xFF, 0xFF, 0xFF, 0xFF, 0xFF, 0xFF, 0xFE],
              is_extended_id := false })

/-! ### motor.py : pack_cmd

The local variables of `pack_cmd` are lifted to top-level definitions so
theorems can speak about them; each is a verbatim transcription. -/

/-- `p_des = max(min(motor_state.p_in, P_MAX), P_MIN)`. -/
def p_des (s : MotorState) : ℚ := max (min s.p_in P_MAX) P_MIN

/-- `v_des = max(min(motor_state.v_in, V_MAX), V_MIN)`. -/
def v_des (s : MotorState) : ℚ := max (min s.v_in V_MAX) V_MIN

/-- `kp = max(min(motor_state.kp_in, KP_MAX), KP_MIN)`. -/
def kp_c (s : MotorState) : ℚ := max (min s.kp_in KP_MAX) KP_MIN

/-- `kd = max(min(motor_state.kd_in, KD_MAX), KD_MIN)`. -/
def kd_c (s : MotorState) : ℚ := max (min s.kd_in KD_MAX) KD_MIN

/-- `t_ff = max(min(motor_state.t_in, T_MAX), T_MIN)`. -/
def t_ff (s : MotorState) : ℚ := max (min s.t_in T_MAX) T_MIN

/-- `p_int = float_to_uint(p_des, P_MIN, P_MAX, 16)`.  The Python value is a
nonnegative int (the input is clamped); `Int.toNat` makes it a byte source. -/
def p_int (s : MotorState) : ℕ := (float_to_uint (p_des s) P_MIN P_MAX 16).toNat

/-- `v_int = float_to_uint(v_des, V_MIN, V_MAX, 12)`. -/
def v_int (s : MotorState) : ℕ := (float_to_uint (v_des s) V_MIN V_MAX 12).toNat

/-- `kp_int = float_to_uint(kp, KP_MIN, KP_MAX, 12)`. -/
def kp_int (s : MotorState) : ℕ := (float_to_uint (kp_c s) KP_MIN KP_MAX 12).toNat

/-- `kd_int = float_to_uint(kd, KD_MIN, KD_MAX, 12)`. -/
def kd_int (s : MotorState) : ℕ := (float_to_uint (kd_c s) KD_MIN KD_MAX 12).toNat

/-- `t_int = float_to_uint(t_ff, T_MIN, T_MAX, 12)`. -/
def t_int (s : MotorState) : ℕ := (float_to_uint (t_ff s) T_MIN T_MAX 12).toNat

/-- The 8-byte buffer built by `pack_cmd` (motor.py lines 107-115). -/
def pack_cmd_buf (s : MotorState) : List ℕ :=
  [p_int s >>> 8,
   p_int s &&& 0xFF,
   v_int s >>> 4,
   ((v_int s &&& 0xF) <<< 4) ||| (kp_int s >>> 8),
   kp_int s &&& 0xFF,
   kd_int s >>> 4,
   ((kd_int s &&& 0xF) <<< 4) ||| (t_int s >>> 8),
   t_int s &&& 0xFF]

/-- `pack_cmd(bus, motor_state)`: returns ((success, sent message), state
after the call).  The body reads `motor_state` but never assigns to it, so
the state component of the result is the input state. -/
def pack_cmd (bus : Option Bus) (s : MotorState) :
    (Bool × Option CanMessage) × MotorState :=
  match bus with
  | none => ((false, none), s)
  | some bus =>
      ((bus.sendOk,
        some { arbitration_id := CONTROLLER_ID,
               data := pack_cmd_buf s,
               is_extended_id := false }), s)

/-! ### motor.py : unpack_reply -/

/-- `unpack_reply(msg, motor_state)`: returns (success, state after the
call).  The Python body reads `buf[0]` .. `buf[5]`; a buffer shorter than 6
raises `IndexError` inside the `try` before any field of `motor_state` is
assigned, so the `except` branch returns `False` with the state untouched. -/
def unpack_reply (msg : Option CanMessage) (s : MotorState) : Bool × MotorState :=
  match msg with
  | none => (false, s)
  | some m =>
      let buf := m.data
      match buf[0]?, buf[1]?, buf[2]?, buf[3]?, buf[4]?, buf[5]? with
      | some _id_received, some b1, some b2, some b3, some b4, some b5 =>
          let p_i : ℕ := (b1 <<< 8) ||| b2
          let v_i : ℕ := (b3 <<< 4) ||| (b4 >>> 4)
          let i_i : ℕ := ((b4 &&& 0xF) <<< 8) ||| b5
          (true,
           { s with
             p_out := uint_to_float p_i P_MIN P_MAX 16,
             v_out := uint_to_float v_i V_MIN V_MAX 12,
             t_out := uint_to_float i_i (-T_MAX) T_MAX 12 })
      | _, _, _, _, _, _ => (false, s)

/-! ### app.py : continuous-send scheduler (toggle_continuous / stop_continuous)

Only the scheduler-relevant state is modelled: the `continuous_active` flag
and the scheduled event (represented by the interval it was scheduled with).
The interval text box is modelled as an already-parsed `Option ℚ` (`none`
models a `ValueError` from `float(...)`, which is caught and only logged). -/

structure ContinuousState where
  continuous_active : Bool
  continuous_event : Option ℚ
  deriving DecidableEq, Repr

/-- `stop_continuous(self)`: everything it does is guarded by
`if self.continuous_active:`; when the scheduler is not active the call
returns without touching anything. -/
def stop_continuous (s : ContinuousState) : ContinuousState :=
  if s.continuous_active then
    { continuous_active := false, continuous_event := none }
  else s

/-- `toggle_continuous(self, instance)`: stops if active; otherwise parses
the interval, raises it to 0.01 if below, and schedules the event. -/
def toggle_continuous (s : ContinuousState) (text_value : Option ℚ) :
    ContinuousState :=
  if s.continuous_active then stop_continuous s
  else
    match text_value with
    | none => s
    | some interval0 =>
        let interval := if interval0 < 0.01 then 0.01 else interval0
        { continuous_active := true, continuous_event := some interval }

/-! ### Spec-side derived definitions -/

/-- Per-channel encode pipeline of `pack_cmd` (motor.py lines 93-104):
clamp the value into `[x_min, x_max]`, then quantize with `float_to_uint`.
This is the spec's `FixedPointCodec.encode`. -/
def clampEncode (x x_min x_max : ℚ) (bits : ℕ) : ℤ :=
  float_to_uint (max (min x x_max) x_min) x_min x_max bits

/-- The PhysicalRange table of the spec (§3): (min, max) per channel, in the
order position, velocity, kp, kd, torque (constants.py). -/
def channelTable : List (ℚ × ℚ) :=
  [(P_MIN, P_MAX), (V_MIN, V_MAX), (KP_MIN, KP_MAX), (KD_MIN, KD_MAX), (T_MIN, T_MAX)]

/-- The golden setpoint record of the spec (§8): position=5.0, velocity=2.0,
kp=100.0, kd=2.0, torque=10.0. -/
def goldenState : MotorState :=
  { initMotorState with p_in := 5, v_in := 2, kp_in := 100, kd_in := 2, t_in := 10 }

/-! ### Helper lemmas about the truncating quantizer -/

lemma truncRat_eq_floor {q : ℚ} (h : 0 ≤ q) : truncRat q = ⌊q⌋ := by
  rw [Rat.floor_def]
  exact Int.tdiv_eq_ediv (Rat.num_nonneg.mpr h) (Int.natCast_nonneg _)

lemma truncRat_zero : truncRat 0 = 0 := by
  rw [truncRat_eq_floor le_rfl]; simp

lemma truncRat_eval {q : ℚ} {n : ℤ} (h0 : 0 ≤ q) (h1 : (n : ℚ) ≤ q) (h2 : q < (n : ℚ) + 1) :
    truncRat q = n := by
  rw [truncRat_eq_floor h0, Int.floor_eq_iff]
  exact ⟨h1, by exact_mod_cast h2⟩

lemma truncRat_nonneg {q : ℚ} (h : 0 ≤ q) : 0 ≤ truncRat q := by
  rw [truncRat_eq_floor h]; exact Int.floor_nonneg.mpr h

lemma truncRat_le_of_le {q : ℚ} {n : ℤ} (h0 : 0 ≤ q) (h : q ≤ (n : ℚ)) : truncRat q ≤ n := by
  rw [truncRat_eq_floor h0]
  calc ⌊q⌋ ≤ ⌊((n : ℤ) : ℚ)⌋ := Int.floor_mono h
    _ = n := Int.floor_intCast n

lemma quant_bounds (x mn mx N : ℚ) (NZ : ℤ) (hNZ : (NZ : ℚ) = N) (hN : 0 < N)
    (hr : mn < mx) (h1 : mn ≤ x) (h2 : x ≤ mx) :
    0 ≤ truncRat ((x - mn) * N / (mx - mn)) ∧ truncRat ((x - mn) * N / (mx - mn)) ≤ NZ := by
  have hspan : (0:ℚ) < mx - mn := sub_pos.mpr hr
  have ht0 : 0 ≤ (x - mn) * N / (mx - mn) :=
    div_nonneg (mul_nonneg (by linarith) hN.le) hspan.le
  refine ⟨truncRat_nonneg ht0, truncRat_le_of_le ht0 ?_⟩
  rw [hNZ, div_le_iff₀ hspan]
  have hd : x - mn ≤ mx - mn := by linarith
  calc (x - mn) * N ≤ (mx - mn) * N := mul_le_mul_of_nonneg_right hd hN.le
    _ = N * (mx - mn) := mul_comm _ _

lemma clamp_mem_lower (x mn mx : ℚ) : mn ≤ max (min x mx) mn := le_max_right _ _

lemma clamp_mem_upper (x mn mx : ℚ) (hr : mn ≤ mx) : max (min x mx) mn ≤ mx :=
  max_le (min_le_right _ _) hr

lemma float_to_uint12_bounds (x mn mx : ℚ) (hr : mn < mx) (h1 : mn ≤ x) (h2 : x ≤ mx) :
    0 ≤ float_to_uint x mn mx 12 ∧ float_to_uint x mn mx 12 ≤ 4095 := by
  simp only [float_to_uint, if_pos rfl]
  exact quant_bounds x mn mx 4095 4095 (by norm_num) (by norm_num) hr h1 h2

lemma float_to_uint16_bounds (x mn mx : ℚ) (hr : mn < mx) (h1 : mn ≤ x) (h2 : x ≤ mx) :
    0 ≤ float_to_uint x mn mx 16 ∧ float_to_uint x mn mx 16 ≤ 65535 := by
  have h16 : (16 : ℕ) ≠ 12 := by norm_num
  simp only [float_to_uint, if_neg h16, if_pos rfl]
  exact quant_bounds x mn mx 65535 65535 (by norm_num) (by norm_num) hr h1 h2

/-! ### Bounds on the quantized command fields -/

lemma p_int_lt (s : MotorState) : p_int s < 65536 := by
  have h := float_to_uint16_bounds (p_des s) P_MIN P_MAX (by norm_num [P_MIN, P_MAX])
    (clamp_mem_lower _ _ _) (clamp_mem_upper _ _ _ (by norm_num [P_MIN, P_MAX]))
  unfold p_int
  omega

lemma v_int_lt (s : MotorState) : v_int s < 4096 := by
  have h := float_to_uint12_bounds (v_des s) V_MIN V_MAX (by norm_num [V_MIN, V_MAX])
    (clamp_mem_lower _ _ _) (clamp_mem_upper _ _ _ (by norm_num [V_MIN, V_MAX]))
  unfold v_int
  omega

lemma kp_int_lt (s : MotorState) : kp_int s < 4096 := by
  have h := float_to_uint12_bounds (kp_c s) KP_MIN KP_MAX (by norm_num [KP_MIN, KP_MAX])
    (clamp_mem_lower _ _ _) (clamp_mem_upper _ _ _ (by norm_num [KP_MIN, KP_MAX]))
  unfold kp_int
  omega

lemma kd_int_lt (s : MotorState) : kd_int s < 4096 := by
  have h := float_to_uint12_bounds (kd_c s) KD_MIN KD_MAX (by norm_num [KD_MIN, KD_MAX])
    (clamp_mem_lower _ _ _) (clamp_mem_upper _ _ _ (by norm_num [KD_MIN, KD_MAX]))
  unfold kd_int
  omega

lemma t_int_lt (s : MotorState) : t_int s < 4096 := by
  have h := float_to_uint12_bounds (t_ff s) T_MIN T_MAX (by norm_num [T_MIN, T_MAX])
    (clamp_mem_lower _ _ _) (clamp_mem_upper _ _ _ (by norm_num [T_MIN, T_MAX]))
  unfold t_int
  omega

/-! ### Mask identities used to relate the byte layout to bit slices -/

lemma and_255_of_lt {x : ℕ} (h : x < 256) : x &&& 0xFF = x := by
  have h2 : x < 2 ^ 8 := by omega
  simpa using Nat.and_pow_two_sub_one_of_lt_two_pow h2

lemma and_15_of_lt {x : ℕ} (h : x < 16) : x &&& 0xF = x := by
  have h2 : x < 2 ^ 4 := by omega
  simpa using Nat.and_pow_two_sub_one_of_lt_two_pow h2

/-! ### Codec endpoint and round-trip lemmas -/

lemma encode_min (mn mx : ℚ) (bits : ℕ) : float_to_uint mn mn mx bits = 0 := by
  simp [float_to_uint, truncRat_zero]

lemma encode_max (mn mx : ℚ) {bits : ℕ} (hr : mn < mx) (hb : bits = 12 ∨ bits = 16) :
    float_to_uint mx mn mx bits = 2 ^ bits - 1 := by
  have hspan : mx - mn ≠ 0 := sub_ne_zero.mpr hr.ne'
  rcases hb with rfl | rfl
  · simp only [float_to_uint, if_pos rfl]
    rw [show (mx - mn) * 4095 / (mx - mn) = 4095 by field_simp,
        show (2:ℤ) ^ 12 - 1 = 4095 by norm_num]
    exact truncRat_eval (by norm_num) (by norm_num) (by norm_num)
  · have h16 : (16 : ℕ) ≠ 12 := by norm_num
    simp only [float_to_uint, if_neg h16, if_pos rfl]
    rw [show (mx - mn) * 65535 / (mx - mn) = 65535 by field_simp,
        show (2:ℤ) ^ 16 - 1 = 65535 by norm_num]
    exact truncRat_eval (by norm_num) (by norm_num) (by norm_num)

lemma decode_zero (mn mx : ℚ) {bits : ℕ} (hb : bits = 12 ∨ bits = 16) :
    uint_to_float 0 mn mx bits = mn := by
  rcases hb with rfl | rfl <;> simp [uint_to_float]

lemma roundtrip_aux (mn mx x N : ℚ) (hN : 0 < N) (hr : mn < mx) (h1 : mn ≤ x) :
    |((truncRat ((x - mn) * N / (mx - mn)) : ℤ) : ℚ) * (mx - mn) / N + mn - x| ≤
      (mx - mn) / N := by
  have hspan : (0:ℚ) < mx - mn := sub_pos.mpr hr
  set t : ℚ := (x - mn) * N / (mx - mn) with ht
  have ht0 : 0 ≤ t := div_nonneg (mul_nonneg (by linarith) hN.le) hspan.le
  rw [truncRat_eq_floor ht0]
  have hfl : ((⌊t⌋ : ℤ) : ℚ) ≤ t := Int.floor_le t
  have hfl2 : t - 1 < ((⌊t⌋ : ℤ) : ℚ) := Int.sub_one_lt_floor t
  have hts : t * ((mx - mn) / N) = x - mn := by
    rw [ht]; field_simp
  have key : ((⌊t⌋ : ℤ) : ℚ) * (mx - mn) / N + mn - x =
      (((⌊t⌋ : ℤ) : ℚ) - t) * ((mx - mn) / N) := by
    linear_combination hts
  rw [key, abs_mul, abs_of_pos (div_pos hspan hN)]
  have h3 : |((⌊t⌋ : ℤ) : ℚ) - t| ≤ 1 := abs_le.mpr ⟨by linarith, by linarith⟩
  calc |((⌊t⌋ : ℤ) : ℚ) - t| * ((mx - mn) / N)
      ≤ 1 * ((mx - mn) / N) := mul_le_mul_of_nonneg_right h3 (div_pos hspan hN).le
    _ = (mx - mn) / N := one_mul _

/-! ### Evaluation of the quantizer on the golden setpoints -/

lemma p_int_golden : p_int goldenState = 45874 := by
  have h : p_des goldenState = 5 := by
    norm_num [p_des, goldenState, initMotorState, P_MIN, P_MAX, min_def, max_def]
  have h2 : float_to_uint 5 P_MIN P_MAX 16 = 45874 := by
    simp only [float_to_uint]
    norm_num [P_MIN, P_MAX]
    exact truncRat_eval (by norm_num) (by norm_num) (by norm_num)
  unfold p_int
  rw [h, h2]
  rfl

lemma v_int_golden : v_int goldenState = 2559 := by
  have h : v_des goldenState = 2 := by
    norm_num [v_des, goldenState, initMotorState, V_MIN, V_MAX, min_def, max_def]
  have h2 : float_to_uint 2 V_MIN V_MAX 12 = 2559 := by
    simp only [float_to_uint]
    norm_num [V_MIN, V_MAX]
    exact truncRat_eval (by norm_num) (by norm_num) (by norm_num)
  unfold v_int
  rw [h, h2]
  rfl

lemma kp_int_golden : kp_int goldenState = 819 := by
  have h : kp_c goldenState = 100 := by
    norm_num [kp_c, goldenState, initMotorState, KP_MIN, KP_MAX, min_def, max_def]
  have h2 : float_to_uint 100 KP_MIN KP_MAX 12 = 819 := by
    simp only [float_to_uint]
    norm_num [KP_MIN, KP_MAX]
    exact truncRat_eval (by norm_num) (by norm_num) (by norm_num)
  unfold kp_int
  rw [h, h2]
  rfl

lemma kd_int_golden : kd_int goldenState = 1638 := by
  have h : kd_c goldenState = 2 := by
    norm_num [kd_c, goldenState, initMotorState, KD_MIN, KD_MAX, min_def, max_def]
  have h2 : float_to_uint 2 KD_MIN KD_MAX 12 = 1638 := by
    simp only [float_to_uint]
    norm_num [KD_MIN, KD_MAX]
    exact truncRat_eval (by norm_num) (by norm_num) (by norm_num)
  unfold kd_int
  rw [h, h2]
  rfl

lemma t_int_golden : t_int goldenState = 2189 := by
  have h : t_ff goldenState = 10 := by
    norm_num [t_ff, goldenState, initMotorState, T_MIN, T_MAX, min_def, max_def]
  have h2 : float_to_uint 10 T_MIN T_MAX 12 = 2189 := by
    simp only [float_to_uint]
    norm_num [T_MIN, T_MAX]
    exact truncRat_eval (by norm_num) (by norm_num) (by norm_num)
  unfold t_int
  rw [h, h2]
  rfl

lemma pack_cmd_buf_golden :
    pack_cmd_buf goldenState = [0xB3, 0x32, 0x9F, 0xF3, 0x33, 0x66, 0x68, 0x8D] := by
  simp only [pack_cmd_buf, p_int_golden, v_int_golden, kp_int_golden, kd_int_golden,
    t_int_golden]
  decide

/-! ### Claim theorems -/

/-- C1: for every setpoint record, `pack_cmd` clamps each field to its channel
range and quantizes it (`p_int` .. `t_int` are the clamped, quantized fields),
and packs the result into an 8-byte frame whose bytes are exactly the bit
slices byte0 = pos[15:8], byte1 = pos[7:0], byte2 = vel[11:4],
byte3 = vel[3:0] << 4 | kp[11:8], byte4 = kp[7:0], byte5 = kd[11:4],
byte6 = kd[3:0] << 4 | torque[11:8], byte7 = torque[7:0]; and on the golden
setpoints (position=5.0, velocity=2.0, kp=100.0, kd=2.0, torque=10.0) the
frame is the fixed byte sequence B3 32 9F F3 33 66 68 8D. -/
theorem pack_cmd_bit_layout_and_golden_vector (bus : Bus) (s : MotorState) :
    (pack_cmd (some bus) s).1.2 =
      some { arbitration_id := 0x17,
             data := [(p_int s >>> 8) &&& 0xFF,
                      p_int s &&& 0xFF,
                      (v_int s >>> 4) &&& 0xFF,
                      ((v_int s &&& 0xF) <<< 4) ||| ((kp_int s >>> 8) &&& 0xF),
                      kp_int s &&& 0xFF,
                      (kd_int s >>> 4) &&& 0xFF,
                      ((kd_int s &&& 0xF) <<< 4) ||| ((t_int s >>> 8) &&& 0xF),
                      t_int s &&& 0xFF],
             is_extended_id := false } ∧
    (pack_cmd (some bus) goldenState).1.2 =
      some { arbitration_id := 0x17,
             data := [0xB3, 0x32, 0x9F, 0xF3, 0x33, 0x66, 0x68, 0x8D],
             is_extended_id := false } := by
  constructor
  · have e0 : (p_int s >>> 8) &&& 0xFF = p_int s >>> 8 := by
      apply and_255_of_lt
      have := p_int_lt s
      rw [Nat.shiftRight_eq_div_pow]
      omega
    have e2 : (v_int s >>> 4) &&& 0xFF = v_int s >>> 4 := by
      apply and_255_of_lt
      have := v_int_lt s
      rw [Nat.shiftRight_eq_div_pow]
      omega
    have e3 : (kp_int s >>> 8) &&& 0xF = kp_int s >>> 8 := by
      apply and_15_of_lt
      have := kp_int_lt s
      rw [Nat.shiftRight_eq_div_pow]
      omega
    have e5 : (kd_int s >>> 4) &&& 0xFF = kd_int s >>> 4 := by
      apply and_255_of_lt
      have := kd_int_lt s
      rw [Nat.shiftRight_eq_div_pow]
      omega
    have e6 : (t_int s >>> 8) &&& 0xF = t_int s >>> 8 := by
      apply and_15_of_lt
      have := t_int_lt s
      rw [Nat.shiftRight_eq_div_pow]
      omega
    simp only [pack_cmd, pack_cmd_buf, e0, e2, e3, e5, e6, CONTROLLER_ID]
  · simp only [pack_cmd, pack_cmd_buf_golden, CONTROLLER_ID]

/-- C2: the per-channel encode pipeline of `pack_cmd` (`clampEncode`, which
clamps to the channel range before quantizing with `float_to_uint`) saturates:
any value above the channel maximum encodes like the maximum, and any value
below the channel minimum encodes like the minimum, for both bit widths and
every range with min < max. -/
theorem clampEncode_saturates (v mn mx : ℚ) (bits : ℕ)
    (hb : bits = 12 ∨ bits = 16) (hr : mn < mx) :
    (mx < v → clampEncode v mn mx bits = clampEncode mx mn mx bits) ∧
    (v < mn → clampEncode v mn mx bits = clampEncode mn mn mx bits) := by
  constructor
  · intro h
    unfold clampEncode
    rw [min_eq_right h.le, min_self]
  · intro h
    unfold clampEncode
    rw [min_eq_left (h.le.trans hr.le), max_eq_right h.le, min_eq_left hr.le, max_self]

/-- Witness for C2 at the concrete instance v = 13, range [-12.5, 12.5],
12 bits. -/
theorem clampEncode_saturates_witness :
    ((12 : ℕ) = 12 ∨ (12 : ℕ) = 16) ∧ ((-12.5 : ℚ) < 12.5) ∧
    (((12.5 : ℚ) < 13 → clampEncode 13 (-12.5) 12.5 12 = clampEncode 12.5 (-12.5) 12.5 12) ∧
     ((13 : ℚ) < -12.5 → clampEncode 13 (-12.5) 12.5 12 = clampEncode (-12.5) (-12.5) 12.5 12)) :=
  ⟨Or.inl rfl, by norm_num,
   clampEncode_saturates 13 (-12.5) 12.5 12 (Or.inl rfl) (by norm_num)⟩

/-- C4: for every reply buffer with at least 6 bytes, `unpack_reply` succeeds
and extracts position_raw = byte1<<8 | byte2 (16 bits, decoded over
[-12.5, 12.5]), velocity_raw = byte3<<4 | byte4>>4 (12 bits, decoded over
[-8.0, 8.0]), and torque_raw = (byte4 & 0xF)<<8 | byte5 (12 bits, decoded over
the symmetric range [-144.0, 144.0]). -/
theorem unpack_reply_field_extraction (aid b0 b1 b2 b3 b4 b5 : ℕ) (rest : List ℕ)
    (ext : Bool) (s : MotorState) :
    unpack_reply (some ⟨aid, b0 :: b1 :: b2 :: b3 :: b4 :: b5 :: rest, ext⟩) s =
      (true, { s with
               p_out := uint_to_float ((b1 <<< 8) ||| b2) (-12.5) 12.5 16,
               v_out := uint_to_float ((b3 <<< 4) ||| (b4 >>> 4)) (-8.0) 8.0 12,
               t_out := uint_to_float (((b4 &&& 0xF) <<< 8) ||| b5) (-144.0) 144.0 12 }) := by
  simp [unpack_reply, P_MIN, P_MAX, V_MIN, V_MAX, T_MAX]

/-- C5: for every channel in the range table and both bit widths,
`decode(encode(min)) = min` exactly, `encode(min) = 0`, and
`encode(max) = 2^bits - 1`. -/
theorem codec_endpoints_exact :
    ∀ c ∈ channelTable, ∀ bits ∈ ([12, 16] : List ℕ),
      uint_to_float (float_to_uint c.1 c.1 c.2 bits) c.1 c.2 bits = c.1 ∧
      float_to_uint c.1 c.1 c.2 bits = 0 ∧
      float_to_uint c.2 c.1 c.2 bits = 2 ^ bits - 1 := by
  intro c hc bits hb
  have hb' : bits = 12 ∨ bits = 16 := by simpa using hb
  have hr : c.1 < c.2 := by
    fin_cases hc <;>
      norm_num [P_MIN, P_MAX, V_MIN, V_MAX, KP_MIN, KP_MAX, KD_MIN, KD_MAX, T_MIN, T_MAX]
  refine ⟨?_, encode_min _ _ _, encode_max _ _ hr hb'⟩
  rw [encode_min]
  exact decode_zero _ _ hb'

/-- Witness for C5 at the position channel with 12 bits. -/
theorem codec_endpoints_exact_witness :
    (P_MIN, P_MAX) ∈ channelTable ∧ (12 : ℕ) ∈ ([12, 16] : List ℕ) ∧
    (uint_to_float (float_to_uint P_MIN P_MIN P_MAX 12) P_MIN P_MAX 12 = P_MIN ∧
     float_to_uint P_MIN P_MIN P_MAX 12 = 0 ∧
     float_to_uint P_MAX P_MIN P_MAX 12 = 2 ^ 12 - 1) :=
  ⟨by simp [channelTable], by simp,
   codec_endpoints_exact (P_MIN, P_MAX) (by simp [channelTable]) 12 (by simp)⟩

/-- C6: round-trip quantization bound: for every channel range with min < max,
both bit widths, and every value in range, decoding the encoded value differs
from the original by at most one quantization step (max-min)/(2^bits - 1). -/
theorem codec_roundtrip_quantization_bound (mn mx x : ℚ) (bits : ℕ)
    (hr : mn < mx) (hb : bits = 12 ∨ bits = 16) (h1 : mn ≤ x) (h2 : x ≤ mx) :
    |uint_to_float (float_to_uint x mn mx bits) mn mx bits - x| ≤
      (mx - mn) / (2 ^ bits - 1) := by
  rcases hb with rfl | rfl
  · simp only [float_to_uint, uint_to_float, if_pos rfl]
    rw [show ((2:ℚ) ^ 12 - 1) = 4095 by norm_num]
    exact roundtrip_aux mn mx x 4095 (by norm_num) hr h1
  · have h16 : (16 : ℕ) ≠ 12 := by norm_num
    simp only [float_to_uint, uint_to_float, if_neg h16, if_pos rfl]
    rw [show ((2:ℚ) ^ 16 - 1) = 65535 by norm_num]
    exact roundtrip_aux mn mx x 65535 (by norm_num) hr h1

/-- Witness for C6 at the velocity range [-8, 8], x = 1, 12 bits. -/
theorem codec_roundtrip_quantization_bound_witness :
    ((-8 : ℚ) < 8) ∧ ((12 : ℕ) = 12 ∨ (12 : ℕ) = 16) ∧ ((-8 : ℚ) ≤ 1) ∧ ((1 : ℚ) ≤ 8) ∧
    |uint_to_float (float_to_uint 1 (-8) 8 12) (-8) 8 12 - 1| ≤ (8 - (-8)) / (2 ^ 12 - 1) :=
  ⟨by norm_num, Or.inl rfl, by norm_num, by norm_num,
   codec_roundtrip_quantization_bound (-8) 8 1 12 (by norm_num) (Or.inl rfl)
     (by norm_num) (by norm_num)⟩

/-- C3 counterexample: the reply buffer `[0x00,0x80,0x00,0x08,0x00,0x08,0x00,0x00]`
named by the spec does NOT decode to the midpoint of each range: `unpack_reply`
extracts velocity_raw = 0x08<<4 | 0x00>>4 = 128 (not 2048) and
torque_raw = (0x00 & 0xF)<<8 | 0x08 = 8 (not 2048), so it yields
velocity ≈ -7.5 and torque ≈ -143.4, nowhere near 0. -/
theorem unpack_reply_spec_buffer_not_near_zero :
    (unpack_reply (some ⟨0, [0x00, 0x80, 0x00, 0x08, 0x00, 0x08, 0x00, 0x00], false⟩)
        initMotorState).1 = true ∧
    (unpack_reply (some ⟨0, [0x00, 0x80, 0x00, 0x08, 0x00, 0x08, 0x00, 0x00], false⟩)
        initMotorState).2.v_out < -7 ∧
    (unpack_reply (some ⟨0, [0x00, 0x80, 0x00, 0x08, 0x00, 0x08, 0x00, 0x00], false⟩)
        initMotorState).2.t_out < -143 := by
  have e : unpack_reply (some ⟨0, [0x00, 0x80, 0x00, 0x08, 0x00, 0x08, 0x00, 0x00], false⟩)
      initMotorState =
      (true, { initMotorState with
               p_out := uint_to_float 32768 P_MIN P_MAX 16,
               v_out := uint_to_float 128 V_MIN V_MAX 12,
               t_out := uint_to_float 8 (-T_MAX) T_MAX 12 }) := by
    simp only [unpack_reply]
    norm_num [Nat.shiftLeft_eq]
  rw [e]
  refine ⟨rfl, ?_, ?_⟩
  · show uint_to_float 128 V_MIN V_MAX 12 < -7
    simp only [uint_to_float]
    norm_num [V_MIN, V_MAX]
  · show uint_to_float 8 (-T_MAX) T_MAX 12 < -143
    simp only [uint_to_float]
    norm_num [T_MAX]

/-- C3 amended: the buffer whose raw fields actually are the channel midpoints
is `[0x00,0x80,0x00,0x80,0x08,0x00,0x00,0x00]` (position_raw = 0x8000,
velocity_raw = 0x800, torque_raw = 0x800); decoding it through `unpack_reply`
yields position, velocity and torque all within 0.05 of 0.0. -/
theorem unpack_reply_midpoint_buffer_decodes_near_zero :
    (unpack_reply (some ⟨0, [0x00, 0x80, 0x00, 0x80, 0x08, 0x00, 0x00, 0x00], false⟩)
        initMotorState).1 = true ∧
    |(unpack_reply (some ⟨0, [0x00, 0x80, 0x00, 0x80, 0x08, 0x00, 0x00, 0x00], false⟩)
        initMotorState).2.p_out| ≤ 1/20 ∧
    |(unpack_reply (some ⟨0, [0x00, 0x80, 0x00, 0x80, 0x08, 0x00, 0x00, 0x00], false⟩)
        initMotorState).2.v_out| ≤ 1/20 ∧
    |(unpack_reply (some ⟨0, [0x00, 0x80, 0x00, 0x80, 0x08, 0x00, 0x00, 0x00], false⟩)
        initMotorState).2.t_out| ≤ 1/20 := by
  have h1 : (8:ℕ) &&& 15 = 8 := by decide
  have h2 : (8:ℕ) >>> 4 = 0 := by decide
  have e : unpack_reply (some ⟨0, [0x00, 0x80, 0x00, 0x80, 0x08, 0x00, 0x00, 0x00], false⟩)
      initMotorState =
      (true, { initMotorState with
               p_out := uint_to_float 32768 P_MIN P_MAX 16,
               v_out := uint_to_float 2048 V_MIN V_MAX 12,
               t_out := uint_to_float 2048 (-T_MAX) T_MAX 12 }) := by
    simp only [unpack_reply]
    norm_num [Nat.shiftLeft_eq, h1, h2]
  rw [e]
  refine ⟨rfl, ?_, ?_, ?_⟩
  · show |uint_to_float 32768 P_MIN P_MAX 16| ≤ 1/20
    simp only [uint_to_float]
    norm_num [P_MIN, P_MAX, abs_le]
  · show |uint_to_float 2048 V_MIN V_MAX 12| ≤ 1/20
    simp only [uint_to_float]
    norm_num [V_MIN, V_MAX, abs_le]
  · show |uint_to_float 2048 (-T_MAX) T_MAX 12| ≤ 1/20
    simp only [uint_to_float]
    norm_num [T_MAX, abs_le]

/-- C7: `unpack_reply` fails (returns `false` instead of raising) exactly when
the message is absent or its data buffer is shorter than 6 bytes, and whenever
it fails the motor state — in particular all three telemetry fields — is left
exactly as it was (no incomplete update). -/
theorem unpack_reply_fails_iff_short_and_preserves_state
    (msg : Option CanMessage) (s : MotorState) :
    ((unpack_reply msg s).1 = false ↔
      (msg = none ∨ ∃ m, msg = some m ∧ m.data.length < 6)) ∧
    ((unpack_reply msg s).1 = false → (unpack_reply msg s).2 = s) := by
  cases msg with
  | none => simp [unpack_reply]
  | some m =>
      obtain ⟨aid, data, ext⟩ := m
      rcases data with _ | ⟨b0, _ | ⟨b1, _ | ⟨b2, _ | ⟨b3, _ | ⟨b4, _ | ⟨b5, rest⟩⟩⟩⟩⟩⟩ <;>
        simp [unpack_reply]

/-- Witness for C7 at a concrete 3-byte (too short) reply. -/
theorem unpack_reply_fails_iff_short_and_preserves_state_witness :
    (unpack_reply (some ⟨0, [1, 2, 3], false⟩) initMotorState).1 = false ∧
    (unpack_reply (some ⟨0, [1, 2, 3], false⟩) initMotorState).2 = initMotorState :=
  ⟨rfl, (unpack_reply_fails_iff_short_and_preserves_state
    (some ⟨0, [1, 2, 3], false⟩) initMotorState).2 rfl⟩

/-- C8: the three mode-control operations each send an 8-byte frame of seven
0xFF bytes followed by 0xFC (enter mode), 0xFD (exit mode) or 0xFE (zero
position), addressed to the fixed device address 0x17 as a standard
(non-extended) frame; `enter_mode` produces exactly
[0xFF,0xFF,0xFF,0xFF,0xFF,0xFF,0xFF,0xFC]. -/
theorem mode_command_frames (bus : Bus) :
    (enter_mode (some bus)).2 =
      some ⟨0x17, List.replicate 7 0xFF ++ [0xFC], false⟩ ∧
    (exit_mode (some bus)).2 =
      some ⟨0x17, List.replicate 7 0xFF ++ [0xFD], false⟩ ∧
    (zero_position (some bus)).2 =
      some ⟨0x17, List.replicate 7 0xFF ++ [0xFE], false⟩ ∧
    (enter_mode (some bus)).2 =
      some ⟨0x17, [0xFF, 0xFF, 0xFF, 0xFF, 0xFF, 0xFF, 0xFF, 0xFC], false⟩ :=
  ⟨rfl, rfl, rfl, rfl⟩

/-- C9: requesting a continuous-send interval below the 0.01 s floor starts the
scheduler with the interval silently raised to exactly 0.01, and stopping a
scheduler that is not active changes nothing and raises no error. -/
theorem scheduler_interval_floor_and_stop_noop (s : ContinuousState) (q : ℚ)
    (hs : s.continuous_active = false) (hq : q < 0.01) :
    toggle_continuous s (some q) =
      { continuous_active := true, continuous_event := some 0.01 } ∧
    stop_continuous s = s := by
  constructor
  · simp [toggle_continuous, hs, hq]
  · simp [stop_continuous, hs]

/-- Witness for C9 at the never-started scheduler state and a requested
interval of 0. -/
theorem scheduler_interval_floor_and_stop_noop_witness :
    (ContinuousState.mk false none).continuous_active = false ∧ ((0 : ℚ) < 0.01) ∧
    (toggle_continuous ⟨false, none⟩ (some 0) =
      { continuous_active := true, continuous_event := some 0.01 } ∧
     stop_continuous ⟨false, none⟩ = ⟨false, none⟩) :=
  ⟨rfl, by norm_num,
   scheduler_interval_floor_and_stop_noop ⟨false, none⟩ 0 rfl (by norm_num)⟩

/-- C10: frame conditions: `pack_cmd` leaves every field of the motor state
unchanged, and a successful `unpack_reply` writes only the three telemetry
fields, leaving all five setpoint fields unchanged. -/
theorem pack_cmd_unpack_reply_frame_conditions (bus : Option Bus)
    (msg : Option CanMessage) (s : MotorState) :
    (pack_cmd bus s).2 = s ∧
    ((unpack_reply msg s).1 = true →
      (unpack_reply msg s).2.p_in = s.p_in ∧
      (unpack_reply msg s).2.v_in = s.v_in ∧
      (unpack_reply msg s).2.kp_in = s.kp_in ∧
      (unpack_reply msg s).2.kd_in = s.kd_in ∧
      (unpack_reply msg s).2.t_in = s.t_in) := by
  constructor
  · cases bus <;> rfl
  · intro _h
    cases msg with
    | none => simp [unpack_reply]
    | some m =>
        obtain ⟨aid, data, ext⟩ := m
        rcases data with _ | ⟨b0, _ | ⟨b1, _ | ⟨b2, _ | ⟨b3, _ | ⟨b4, _ | ⟨b5, rest⟩⟩⟩⟩⟩⟩ <;>
          simp [unpack_reply]

/-- Witness for C10 at a concrete bus, a successfully decoded 8-byte reply and
the initial motor state. -/
theorem pack_cmd_unpack_reply_frame_conditions_witness :
    (unpack_reply (some ⟨0, [0, 0, 0, 0, 0, 0, 0, 0], false⟩) initMotorState).1 = true ∧
    (pack_cmd (some ⟨true⟩) initMotorState).2 = initMotorState ∧
    ((unpack_reply (some ⟨0, [0, 0, 0, 0, 0, 0, 0, 0], false⟩) initMotorState).2.p_in =
        initMotorState.p_in ∧
     (unpack_reply (some ⟨0, [0, 0, 0, 0, 0, 0, 0, 0], false⟩) initMotorState).2.v_in =
        initMotorState.v_in ∧
     (unpack_reply (some ⟨0, [0, 0, 0, 0, 0, 0, 0, 0], false⟩) initMotorState).2.kp_in =
        initMotorState.kp_in ∧
     (unpack_reply (some ⟨0, [0, 0, 0, 0, 0, 0, 0, 0], false⟩) initMotorState).2.kd_in =
        initMotorState.kd_in ∧
     (unpack_reply (some ⟨0, [0, 0, 0, 0, 0, 0, 0, 0], false⟩) initMotorState).2.t_in =
        initMotorState.t_in) :=
  ⟨rfl,
   (pack_cmd_unpack_reply_frame_conditions (some ⟨true⟩)
     (some ⟨0, [0, 0, 0, 0, 0, 0, 0, 0], false⟩) initMotorState).1,
   (pack_cmd_unpack_reply_frame_conditions (some ⟨true⟩)
     (some ⟨0, [0, 0, 0, 0, 0, 0, 0, 0], false⟩) initMotorState).2 rfl⟩

end CubeMars
